import Mathlib

/-!
# MyWebsite: the 3D viewer of `src/main.js`

A shallow embedding of the viewer script: the module-level variables
(`model`, `scene`, `camera`, `renderer`, `composer`, `rgbShiftPass`,
`pmremGenerator`) become one record `Viewer`, every listener and callback
becomes a function `Viewer → Viewer`, and calls into third-party libraries
whose effect is not a field write (`gsap.to`, `dispose`) are recorded in logs.

Numbers: a JavaScript number is idealised as an exact rational, extended with
`+Infinity`, `-Infinity` and `NaN` so that an unguarded division by zero is
visible. Rounding of IEEE doubles and the sign of zero are not modelled.
`window.innerWidth` and `window.innerHeight` are natural numbers.
-/

namespace MyWebsite

/-! ## JavaScript numbers -/

/-- A JavaScript number: an exact rational, an infinity, or NaN. -/
inductive JSNum where
  | fin (q : ℚ)
  | posInf
  | negInf
  | nan
  deriving DecidableEq, Repr

namespace JSNum

/-- The infinity with the sign given: negative when `neg` is true. -/
def inf (neg : Bool) : JSNum := if neg then negInf else posInf

/-- JavaScript `a / b`. A finite non-zero number over zero is an infinity,
zero over zero is NaN. -/
def div : JSNum → JSNum → JSNum
  | nan, _ => nan
  | _, nan => nan
  | fin a, fin b =>
      if b = 0 then (if a = 0 then nan else inf (decide (a < 0))) else fin (a / b)
  | fin _, posInf => fin 0
  | fin _, negInf => fin 0
  | posInf, fin b => inf (decide (b < 0))
  | negInf, fin b => inf (decide (0 ≤ b))
  | posInf, posInf => nan
  | posInf, negInf => nan
  | negInf, posInf => nan
  | negInf, negInf => nan

/-- JavaScript `a - b`. -/
def sub : JSNum → JSNum → JSNum
  | nan, _ => nan
  | _, nan => nan
  | fin a, fin b => fin (a - b)
  | fin _, posInf => negInf
  | fin _, negInf => posInf
  | posInf, fin _ => posInf
  | negInf, fin _ => negInf
  | posInf, posInf => nan
  | negInf, negInf => nan
  | posInf, negInf => posInf
  | negInf, posInf => negInf

/-- JavaScript `a * b`. An infinity times zero is NaN. -/
def mul : JSNum → JSNum → JSNum
  | nan, _ => nan
  | _, nan => nan
  | fin a, fin b => fin (a * b)
  | fin a, posInf => if a = 0 then nan else inf (decide (a < 0))
  | fin a, negInf => if a = 0 then nan else inf (decide (0 < a))
  | posInf, fin b => if b = 0 then nan else inf (decide (b < 0))
  | negInf, fin b => if b = 0 then nan else inf (decide (0 < b))
  | posInf, posInf => posInf
  | negInf, negInf => posInf
  | posInf, negInf => negInf
  | negInf, posInf => negInf

/-- JavaScript `Number.isFinite`. -/
def isFinite : JSNum → Bool
  | fin _ => true
  | _ => false

end JSNum

/-- The value of `Math.PI`: the double nearest to π, `0x400921FB54442D18`,
as an exact rational. -/
def Math_PI : ℚ := 884279719003555 / 281474976710656

/-! ## The viewer state -/

/-- The fields of the browser `window` that the script reads. -/
structure Window where
  innerWidth : Nat
  innerHeight : Nat
  devicePixelRatio : ℚ
  deriving DecidableEq, Repr

/-- A `THREE.Vector3` (also used for the Euler angles of `rotation`). -/
structure Vector3 where
  x : ℚ
  y : ℚ
  z : ℚ
  deriving DecidableEq, Repr

/-- The parameters a projection matrix was last computed from. -/
structure Projection where
  fov : ℚ
  aspect : JSNum
  near : ℚ
  far : ℚ
  deriving DecidableEq, Repr

/-- A `THREE.PerspectiveCamera`. -/
structure PerspectiveCamera where
  fov : ℚ
  aspect : JSNum
  near : ℚ
  far : ℚ
  position : Vector3
  projectionMatrix : Projection
  deriving DecidableEq, Repr

/-- The size state of the `THREE.WebGLRenderer`. -/
structure WebGLRenderer where
  width : Nat
  height : Nat
  pixelRatio : ℚ
  deriving DecidableEq, Repr

/-- The passes added to the composer. -/
inductive Pass where
  | renderPass
  | rgbShiftPass
  deriving DecidableEq, Repr

/-- The `EffectComposer`: its pass list, in order, and its size. -/
structure EffectComposer where
  passes : List Pass
  width : Nat
  height : Nat
  deriving DecidableEq, Repr

/-- The `ShaderPass` built from `RGBShiftShader`: its `amount` uniform. -/
structure ShaderPass where
  amount : ℚ
  deriving DecidableEq, Repr

/-- The equirectangular texture handed over by `RGBELoader`. -/
structure Texture where
  id : Nat
  deriving DecidableEq, Repr

/-- The environment map that `fromEquirectangular` computes from a texture. -/
structure EnvMap where
  source : Texture
  deriving DecidableEq, Repr

/-- The resources on which the script calls `dispose()`. -/
inductive Resource where
  | texture (t : Texture)
  | pmremGenerator
  deriving DecidableEq, Repr

/-- The `THREE.Scene`: its environment and whether the model was added. -/
structure Scene where
  environment : Option EnvMap
  hasModel : Bool
  deriving DecidableEq, Repr

/-- The loaded model `gltf.scene`, a `THREE.Object3D`. -/
structure Object3D where
  scale : Vector3
  rotation : Vector3
  deriving DecidableEq, Repr

/-- One call `gsap.to(model.rotation, vars)`: the `vars` object. -/
structure TweenVars where
  x : JSNum
  y : JSNum
  duration : ℚ
  ease : String
  deriving DecidableEq, Repr

/-- The module-level state of `main.js`. -/
structure Viewer where
  window : Window
  model : Option Object3D
  scene : Scene
  camera : PerspectiveCamera
  renderer : WebGLRenderer
  composer : EffectComposer
  rgbShiftPass : ShaderPass
  /-- Every `dispose()` call made so far, oldest first. -/
  disposed : List Resource
  /-- Every `gsap.to(model.rotation, ...)` call made so far, oldest first. -/
  tweens : List TweenVars
  /-- The number of `console.error` calls made so far. -/
  errorsLogged : Nat
  deriving DecidableEq, Repr

/-! ## The script -/

/-- The function `isMobile` (lines 15-17): `window.innerWidth <= 768`. -/
def isMobile (window : Window) : Bool :=
  decide (window.innerWidth ≤ 768)

/-- The method `camera.updateProjectionMatrix()`: the matrix is recomputed
from the current `fov`, `aspect`, `near` and `far`. -/
def PerspectiveCamera.updateProjectionMatrix (c : PerspectiveCamera) : PerspectiveCamera :=
  { c with projectionMatrix := ⟨c.fov, c.aspect, c.near, c.far⟩ }

/-- The top-level statements of the script (lines 19-47), run once at load in
a window of the given size: they build the camera, the renderer, the composer
with its two passes and the environment-map generator. -/
def init (window : Window) : Viewer :=
  let fov : ℚ := if isMobile window then 45 else 30
  let aspect := JSNum.div (.fin window.innerWidth) (.fin window.innerHeight)
  { window := window
    model := none
    scene := { environment := none, hasModel := false }
    camera :=
      { fov := fov, aspect := aspect, near := 0.1, far := 100
        position := ⟨0, 0, if isMobile window then 7 else 5⟩
        projectionMatrix := ⟨fov, aspect, 0.1, 100⟩ }
    renderer :=
      { width := window.innerWidth, height := window.innerHeight
        pixelRatio := min window.devicePixelRatio 2 }
    composer :=
      { passes := [.renderPass, .rgbShiftPass]
        width := window.innerWidth, height := window.innerHeight }
    rgbShiftPass := { amount := if isMobile window then 0.0015 else 0.0030 }
    disposed := []
    tweens := []
    errorsLogged := 0 }

/-- The success callback of the `RGBELoader` load (lines 51-56). -/
def onEnvironmentLoad (texture : Texture) (s : Viewer) : Viewer :=
  let envMap : EnvMap := ⟨texture⟩
  { s with
    scene := { s.scene with environment := some envMap }
    disposed := s.disposed ++ [.texture texture, .pmremGenerator] }

/-- How a load ends: with the loaded value, or with a load error. -/
inductive LoadOutcome (α : Type) where
  | success (value : α)
  | error
  deriving DecidableEq, Repr

/-- The completion of the environment-map load (lines 50-56). Only a success
callback is passed to `load`, so on a load error no statement of the script
runs. -/
def environmentLoadCompletes (outcome : LoadOutcome Texture) (s : Viewer) : Viewer :=
  match outcome with
  | .success texture => onEnvironmentLoad texture s
  | .error => s

/-- The success callback of the `GLTFLoader` load (lines 62-68). -/
def onModelLoad (gltfScene : Object3D) (s : Viewer) : Viewer :=
  let model : Object3D :=
    if isMobile s.window then { gltfScene with scale := ⟨0.8, 0.8, 0.8⟩ } else gltfScene
  { s with model := some model, scene := { s.scene with hasModel := true } }

/-- The error callback of the `GLTFLoader` load (lines 72-74). -/
def onModelError (s : Viewer) : Viewer :=
  { s with errorsLogged := s.errorsLogged + 1 }

/-- The completion of the model load (lines 60-75). -/
def modelLoadCompletes (outcome : LoadOutcome Object3D) (s : Viewer) : Viewer :=
  match outcome with
  | .success gltfScene => onModelLoad gltfScene s
  | .error => onModelError s

/-- The function `handleInteraction` (lines 78-89). -/
def handleInteraction (x y : ℚ) (s : Viewer) : Viewer :=
  match s.model with
  | none => s
  | some _ =>
    let rotationX :=
      JSNum.mul (JSNum.sub (JSNum.div (.fin x) (.fin s.window.innerWidth)) (.fin 0.5))
        (JSNum.mul (.fin Math_PI) (.fin (if isMobile s.window then 0.08 else 0.12)))
    let rotationY :=
      JSNum.mul (JSNum.sub (JSNum.div (.fin y) (.fin s.window.innerHeight)) (.fin 0.5))
        (JSNum.mul (.fin Math_PI) (.fin (if isMobile s.window then 0.08 else 0.12)))
    { s with
      tweens := s.tweens ++
        [{ x := rotationY
           y := rotationX
           duration := if isMobile s.window then 0.5 else 0.8
           ease := "power2.out" }] }

/-- The `mousemove` listener (lines 91-93). -/
def mousemoveListener (clientX clientY : ℚ) (s : Viewer) : Viewer :=
  handleInteraction clientX clientY s

/-- The `touchmove` listener (lines 95-99), given the event's `touches` as
pairs `(clientX, clientY)`. Reading `clientX` of a missing first touch
throws, which is `none`. -/
def touchmoveListener (touches : List (ℚ × ℚ)) (s : Viewer) : Option Viewer :=
  match touches.head? with
  | none => none
  | some touch => some (handleInteraction touch.1 touch.2 s)

/-- The `resize` listener (lines 101-116). -/
def resizeListener (s : Viewer) : Viewer :=
  let camera : PerspectiveCamera :=
    PerspectiveCamera.updateProjectionMatrix
      { s.camera with
        aspect := JSNum.div (.fin s.window.innerWidth) (.fin s.window.innerHeight)
        fov := if isMobile s.window then 45 else 30
        position := { s.camera.position with z := if isMobile s.window then 7 else 5 } }
  let renderer : WebGLRenderer :=
    { s.renderer with width := s.window.innerWidth, height := s.window.innerHeight }
  let composer : EffectComposer :=
    { s.composer with width := s.window.innerWidth, height := s.window.innerHeight }
  let model : Option Object3D :=
    match s.model with
    | none => none
    | some m =>
      some { m with
        scale := ⟨if isMobile s.window then 0.8 else 1,
                  if isMobile s.window then 0.8 else 1,
                  if isMobile s.window then 0.8 else 1⟩ }
  { s with camera := camera, renderer := renderer, composer := composer, model := model }

/-- A resize of the window to `w × h`: the browser updates `innerWidth` and
`innerHeight` and then runs the `resize` listener. -/
def resize (w h : Nat) (s : Viewer) : Viewer :=
  resizeListener { s with window := { s.window with innerWidth := w, innerHeight := h } }

end MyWebsite

namespace MyWebsite

/-! ## Arithmetic of finite numbers -/

theorem JSNum.div_fin_of_ne_zero (a b : ℚ) (hb : b ≠ 0) :
    JSNum.div (.fin a) (.fin b) = .fin (a / b) := by
  simp [JSNum.div, hb]

theorem JSNum.div_nat_of_ne_zero (a : ℚ) (n : Nat) (hn : n ≠ 0) :
    JSNum.div (.fin a) (.fin (n : ℚ)) = .fin (a / n) :=
  JSNum.div_fin_of_ne_zero a n (by exact_mod_cast hn)

theorem JSNum.sub_fin (a b : ℚ) : JSNum.sub (.fin a) (.fin b) = .fin (a - b) := rfl

theorem JSNum.mul_fin (a b : ℚ) : JSNum.mul (.fin a) (.fin b) = .fin (a * b) := rfl

theorem isMobile_eq (window : Window) :
    isMobile window = decide (window.innerWidth ≤ 768) := rfl

/-! ## Device classification -/

/-- C1: `isMobile` returns true exactly when the viewport width is at most
768, so 768 is mobile and 769 is desktop, and two windows of the same width
are classified alike whatever their other fields. -/
theorem isMobile_iff_width_le_768 :
    (∀ window : Window, isMobile window = true ↔ window.innerWidth ≤ 768) ∧
    (∀ (h : Nat) (r : ℚ), isMobile ⟨768, h, r⟩ = true ∧ isMobile ⟨769, h, r⟩ = false) ∧
    (∀ window other : Window, window.innerWidth = other.innerWidth →
      isMobile window = isMobile other) := by
  refine ⟨fun window => by simp [isMobile], fun h r => by simp [isMobile], ?_⟩
  intro window other hw
  simp [isMobile, hw]

theorem isMobile_iff_width_le_768_witness :
    (isMobile ⟨600, 800, 2⟩ = true ↔ 600 ≤ 768) ∧
    isMobile ⟨600, 800, 2⟩ = isMobile ⟨600, 1200, 3⟩ :=
  ⟨isMobile_iff_width_le_768.1 ⟨600, 800, 2⟩,
   isMobile_iff_width_le_768.2.2 ⟨600, 800, 2⟩ ⟨600, 1200, 3⟩ rfl⟩

/-! ## Resize -/

/-- C3: after a resize to `w × h` with `h` non-zero the camera has aspect
`w / h`, field of view 45 if `w ≤ 768` else 30 and distance 7 if `w ≤ 768`
else 5, the projection matrix is computed from these values, a loaded model
has scale 0.8 (if `w ≤ 768`) or 1 on all three axes with its other fields
kept, and with no model loaded there is still no model. -/
theorem resize_sets_camera_and_scale (s : Viewer) (w h : Nat) (hh : h ≠ 0) :
    (resize w h s).camera.aspect = .fin ((w : ℚ) / h) ∧
    (resize w h s).camera.fov = (if w ≤ 768 then 45 else 30) ∧
    (resize w h s).camera.position.z = (if w ≤ 768 then 7 else 5) ∧
    (resize w h s).camera.projectionMatrix.aspect = .fin ((w : ℚ) / h) ∧
    (resize w h s).camera.projectionMatrix.fov = (if w ≤ 768 then 45 else 30) ∧
    (∀ m : Object3D, s.model = some m →
      (resize w h s).model =
        some { m with scale := if w ≤ 768 then ⟨0.8, 0.8, 0.8⟩ else ⟨1, 1, 1⟩ }) ∧
    (s.model = none → (resize w h s).model = none) := by
  have ha := JSNum.div_nat_of_ne_zero (w : ℚ) h hh
  refine ⟨?_, ?_, ?_, ?_, ?_, ?_, ?_⟩
  · simpa [resize, resizeListener, PerspectiveCamera.updateProjectionMatrix] using ha
  · simp [resize, resizeListener, PerspectiveCamera.updateProjectionMatrix, isMobile]
  · simp [resize, resizeListener, PerspectiveCamera.updateProjectionMatrix, isMobile]
  · simpa [resize, resizeListener, PerspectiveCamera.updateProjectionMatrix] using ha
  · simp [resize, resizeListener, PerspectiveCamera.updateProjectionMatrix, isMobile]
  · intro m hm
    by_cases hw : w ≤ 768 <;> simp [resize, resizeListener, isMobile, hm, hw]
  · intro hm
    simp [resize, resizeListener, hm]

theorem resize_sets_camera_and_scale_witness :
    (800 : Nat) ≠ 0 ∧
    (init ⟨1024, 768, 1⟩).camera.fov = 30 ∧
    (init ⟨1024, 768, 1⟩).camera.position.z = 5 ∧
    (resize 600 800 (onModelLoad ⟨⟨1, 1, 1⟩, ⟨0, 0, 0⟩⟩ (init ⟨1024, 768, 1⟩))).camera.fov = 45 ∧
    (resize 600 800
      (onModelLoad ⟨⟨1, 1, 1⟩, ⟨0, 0, 0⟩⟩ (init ⟨1024, 768, 1⟩))).camera.position.z = 7 ∧
    (resize 600 800 (onModelLoad ⟨⟨1, 1, 1⟩, ⟨0, 0, 0⟩⟩ (init ⟨1024, 768, 1⟩))).model =
      some ⟨⟨0.8, 0.8, 0.8⟩, ⟨0, 0, 0⟩⟩ ∧
    (resize 600 800 (init ⟨1024, 768, 1⟩)).model = none := by
  have h1 := resize_sets_camera_and_scale
    (onModelLoad ⟨⟨1, 1, 1⟩, ⟨0, 0, 0⟩⟩ (init ⟨1024, 768, 1⟩)) 600 800 (by decide)
  have h2 := resize_sets_camera_and_scale (init ⟨1024, 768, 1⟩) 600 800 (by decide)
  refine ⟨by decide, by simp [init, isMobile], by simp [init, isMobile], ?_, ?_, ?_, ?_⟩
  · simpa using h1.2.1
  · simpa using h1.2.2.1
  · have h := h1.2.2.2.2.2.1 ⟨⟨1, 1, 1⟩, ⟨0, 0, 0⟩⟩ (by simp [onModelLoad, init, isMobile])
    simpa using h
  · exact h2.2.2.2.2.2.2 (by simp [init])

/-- C4: running the resize twice with the same width and height leaves the
same viewer state (camera, renderer and composer size, model) as running it
once. -/
theorem resize_idempotent (s : Viewer) (w h : Nat) :
    resize w h (resize w h s) = resize w h s := by
  cases hm : s.model <;>
    simp [resize, resizeListener, PerspectiveCamera.updateProjectionMatrix, hm]

/-! ## Interaction before the model is loaded -/

/-- C6: while no model is loaded, `handleInteraction` returns the viewer state
unchanged for every sample, so it requests no transition; the same holds for a
mouse move and for a touch move with a first touch, neither of which throws. -/
theorem handleInteraction_without_model (s : Viewer) (x y : ℚ) (hm : s.model = none) :
    handleInteraction x y s = s ∧
    (handleInteraction x y s).tweens = s.tweens ∧
    mousemoveListener x y s = s ∧
    (∀ rest : List (ℚ × ℚ), touchmoveListener ((x, y) :: rest) s = some s) := by
  have h : handleInteraction x y s = s := by simp [handleInteraction, hm]
  refine ⟨h, by rw [h], h, fun rest => ?_⟩
  simp [touchmoveListener, h]

theorem handleInteraction_without_model_witness :
    (init ⟨1024, 768, 1⟩).model = none ∧
    handleInteraction 300 200 (init ⟨1024, 768, 1⟩) = init ⟨1024, 768, 1⟩ ∧
    (handleInteraction 300 200 (init ⟨1024, 768, 1⟩)).tweens = [] :=
  ⟨rfl, (handleInteraction_without_model (init ⟨1024, 768, 1⟩) 300 200 rfl).1,
   (handleInteraction_without_model (init ⟨1024, 768, 1⟩) 300 200 rfl).2.1⟩

/-! ## Pointer mapping -/

/-- With a model loaded and a viewport of positive size, both divisions in
`handleInteraction` are finite and the call appends one `gsap.to` request. -/
theorem handleInteraction_of_model (s : Viewer) (m : Object3D) (x y : ℚ)
    (hm : s.model = some m) (hW : 0 < s.window.innerWidth)
    (hH : 0 < s.window.innerHeight) :
    handleInteraction x y s =
      { s with
        tweens := s.tweens ++
          [{ x := .fin ((y / s.window.innerHeight - 0.5) *
                    (Math_PI * (if s.window.innerWidth ≤ 768 then 0.08 else 0.12)))
             y := .fin ((x / s.window.innerWidth - 0.5) *
                    (Math_PI * (if s.window.innerWidth ≤ 768 then 0.08 else 0.12)))
             duration := if s.window.innerWidth ≤ 768 then 0.5 else 0.8
             ease := "power2.out" }] } := by
  have hx := JSNum.div_nat_of_ne_zero x s.window.innerWidth (Nat.pos_iff_ne_zero.mp hW)
  have hy := JSNum.div_nat_of_ne_zero y s.window.innerHeight (Nat.pos_iff_ne_zero.mp hH)
  by_cases hw : s.window.innerWidth ≤ 768 <;>
    simp [handleInteraction, hm, hx, hy, JSNum.sub_fin, JSNum.mul_fin, isMobile, hw]

/-- C2: with a model loaded and a viewport of positive width `W` and height
`H`, `handleInteraction x y` requests exactly one transition, whose target for
the Y-axis rotation is `(x/W - 0.5) * π * swing` and for the X-axis rotation is
`(y/H - 0.5) * π * swing`, with swing 0.12 and duration 0.8 on desktop, swing
0.08 and duration 0.5 on mobile, and the ease `power2.out`. -/
theorem handleInteraction_requests_transition (s : Viewer) (m : Object3D) (x y : ℚ)
    (hm : s.model = some m) (hW : 0 < s.window.innerWidth)
    (hH : 0 < s.window.innerHeight) :
    (handleInteraction x y s).tweens = s.tweens ++
      [{ x := .fin ((y / s.window.innerHeight - 0.5) * Math_PI *
                (if s.window.innerWidth ≤ 768 then 0.08 else 0.12))
         y := .fin ((x / s.window.innerWidth - 0.5) * Math_PI *
                (if s.window.innerWidth ≤ 768 then 0.08 else 0.12))
         duration := if s.window.innerWidth ≤ 768 then 0.5 else 0.8
         ease := "power2.out" }] ∧
    (handleInteraction x y s).model = s.model ∧
    (handleInteraction x y s).camera = s.camera := by
  rw [handleInteraction_of_model s m x y hm hW hH]
  simp [mul_assoc]

theorem handleInteraction_requests_transition_witness :
    (0 < 1000 ∧ 0 < 800) ∧
    (handleInteraction 1000 800
        (onModelLoad ⟨⟨1, 1, 1⟩, ⟨0, 0, 0⟩⟩ (init ⟨1000, 800, 1⟩))).tweens =
      [{ x := .fin (0.5 * Math_PI * 0.12), y := .fin (0.5 * Math_PI * 0.12)
         duration := 0.8, ease := "power2.out" }] ∧
    |0.5 * Math_PI * 0.12 - 0.1885| < 0.0001 ∧
    (handleInteraction 500 400
        (onModelLoad ⟨⟨1, 1, 1⟩, ⟨0, 0, 0⟩⟩ (init ⟨1000, 800, 1⟩))).tweens =
      [{ x := .fin 0, y := .fin 0, duration := 0.8, ease := "power2.out" }] := by
  have hm : (onModelLoad ⟨⟨1, 1, 1⟩, ⟨0, 0, 0⟩⟩ (init ⟨1000, 800, 1⟩)).model =
      some ⟨⟨1, 1, 1⟩, ⟨0, 0, 0⟩⟩ := by simp [onModelLoad, init, isMobile]
  have h1 := (handleInteraction_requests_transition _ _ 1000 800 hm
    (by simp [onModelLoad, init]) (by simp [onModelLoad, init])).1
  have h2 := (handleInteraction_requests_transition _ _ 500 400 hm
    (by simp [onModelLoad, init]) (by simp [onModelLoad, init])).1
  refine ⟨by decide, ?_, ?_, ?_⟩
  · rw [h1]; simp [onModelLoad, init]; norm_num
  · rw [abs_lt]; norm_num [Math_PI]
  · rw [h2]; simp [onModelLoad, init]; norm_num

theorem Math_PI_pos : 0 < Math_PI := by norm_num [Math_PI]

/-- For `0 ≤ x ≤ W` with `W` positive, `(x/W - 0.5) * c` lies within `c/2` of
zero when `c` is non-negative. -/
theorem abs_centred_mul_le (x W c : ℚ) (hW : 0 < W) (hx0 : 0 ≤ x) (hx1 : x ≤ W)
    (hc : 0 ≤ c) : |(x / W - 0.5) * c| ≤ c / 2 := by
  have h0 : 0 ≤ x / W := div_nonneg hx0 hW.le
  have h1 : x / W ≤ 1 := (div_le_one hW).mpr hx1
  rw [abs_le]
  constructor <;> nlinarith

/-- C10: with a model loaded, a viewport of positive width `W` and height `H`
and a sample with `0 ≤ x ≤ W` and `0 ≤ y ≤ H`, both targets requested by
`handleInteraction` are finite and lie within `π * swing / 2` of zero, which is
`0.06 π` on desktop and `0.04 π` on mobile; the bound is attained at the edges:
`-π * swing / 2` at coordinate 0 and `+π * swing / 2` at `W` (or `H`). -/
theorem handleInteraction_targets_bounded (s : Viewer) (m : Object3D) (x y : ℚ)
    (hm : s.model = some m) (hW : 0 < s.window.innerWidth)
    (hH : 0 < s.window.innerHeight)
    (hx0 : 0 ≤ x) (hx1 : x ≤ s.window.innerWidth)
    (hy0 : 0 ≤ y) (hy1 : y ≤ s.window.innerHeight) :
    ∃ tx ty : ℚ,
      (handleInteraction x y s).tweens = s.tweens ++
        [{ x := .fin tx, y := .fin ty
           duration := if s.window.innerWidth ≤ 768 then 0.5 else 0.8
           ease := "power2.out" }] ∧
      |tx| ≤ Math_PI * (if s.window.innerWidth ≤ 768 then 0.08 else 0.12) / 2 ∧
      |ty| ≤ Math_PI * (if s.window.innerWidth ≤ 768 then 0.08 else 0.12) / 2 ∧
      Math_PI * (if s.window.innerWidth ≤ 768 then 0.08 else 0.12) / 2 =
        (if s.window.innerWidth ≤ 768 then 0.04 else 0.06) * Math_PI ∧
      (y = 0 → tx = -(Math_PI * (if s.window.innerWidth ≤ 768 then 0.08 else 0.12) / 2)) ∧
      (y = s.window.innerHeight →
        tx = Math_PI * (if s.window.innerWidth ≤ 768 then 0.08 else 0.12) / 2) ∧
      (x = 0 → ty = -(Math_PI * (if s.window.innerWidth ≤ 768 then 0.08 else 0.12) / 2)) ∧
      (x = s.window.innerWidth →
        ty = Math_PI * (if s.window.innerWidth ≤ 768 then 0.08 else 0.12) / 2) := by
  have hWq : (0 : ℚ) < s.window.innerWidth := by exact_mod_cast hW
  have hHq : (0 : ℚ) < s.window.innerHeight := by exact_mod_cast hH
  have hc : (0 : ℚ) ≤ Math_PI * (if s.window.innerWidth ≤ 768 then 0.08 else 0.12) := by
    have := Math_PI_pos
    split_ifs <;> positivity
  refine ⟨_, _, ?_, abs_centred_mul_le y _ _ hHq hy0 hy1 hc,
    abs_centred_mul_le x _ _ hWq hx0 hx1 hc, ?_, ?_, ?_, ?_, ?_⟩
  · rw [handleInteraction_of_model s m x y hm hW hH]
  · split_ifs <;> ring
  · intro h; rw [h]; ring
  · intro h; rw [h, div_self hHq.ne']; ring
  · intro h; rw [h]; ring
  · intro h; rw [h, div_self hWq.ne']; ring

theorem handleInteraction_targets_bounded_witness :
    ∃ tx ty : ℚ,
      (handleInteraction 0 800
          (onModelLoad ⟨⟨1, 1, 1⟩, ⟨0, 0, 0⟩⟩ (init ⟨1000, 800, 1⟩))).tweens =
        [{ x := .fin tx, y := .fin ty, duration := 0.8, ease := "power2.out" }] ∧
      |tx| ≤ 0.06 * Math_PI ∧ |ty| ≤ 0.06 * Math_PI ∧
      tx = 0.06 * Math_PI ∧ ty = -(0.06 * Math_PI) := by
  have hm : (onModelLoad ⟨⟨1, 1, 1⟩, ⟨0, 0, 0⟩⟩ (init ⟨1000, 800, 1⟩)).model =
      some ⟨⟨1, 1, 1⟩, ⟨0, 0, 0⟩⟩ := by simp [onModelLoad, init, isMobile]
  obtain ⟨tx, ty, ht, hbx, hby, hk, _, hxe, hye, _⟩ :=
    handleInteraction_targets_bounded
      (onModelLoad ⟨⟨1, 1, 1⟩, ⟨0, 0, 0⟩⟩ (init ⟨1000, 800, 1⟩)) _ 0 800 hm
      (by simp [onModelLoad, init]) (by simp [onModelLoad, init]) (le_refl 0)
      (by simp [onModelLoad, init]) (by norm_num) (by simp [onModelLoad, init])
  have hk2 : Math_PI * (0.12 : ℚ) / 2 = 0.06 * Math_PI := by ring
  simp [onModelLoad, init] at ht hbx hby hxe hye
  refine ⟨tx, ty, ht, ?_, ?_, ?_, ?_⟩
  · rw [← hk2]; exact hbx
  · rw [← hk2]; exact hby
  · rw [← hk2]; exact hxe
  · rw [← hk2]; exact hye

/-! ## Resize to a viewport with a zero dimension -/

/-- C5, as stated, fails: from a desktop start at 1024 × 768, a resize to
1024 × 0 is not a no-op. It writes the aspect `+Infinity` into the camera and
its projection matrix and the height 0 into the renderer and the composer. -/
theorem resize_zero_height_not_noop :
    (resize 1024 0 (init ⟨1024, 768, 1⟩)).camera.aspect = .posInf ∧
    (resize 1024 0 (init ⟨1024, 768, 1⟩)).camera.aspect.isFinite = false ∧
    (resize 1024 0 (init ⟨1024, 768, 1⟩)).camera.projectionMatrix.aspect = .posInf ∧
    (init ⟨1024, 768, 1⟩).camera.aspect = .fin (4 / 3) ∧
    (init ⟨1024, 768, 1⟩).renderer.height = 768 ∧
    (resize 1024 0 (init ⟨1024, 768, 1⟩)).renderer.height = 0 ∧
    (resize 1024 0 (init ⟨1024, 768, 1⟩)).composer.height = 0 ∧
    ¬ ((resize 1024 0 (init ⟨1024, 768, 1⟩)).camera = (init ⟨1024, 768, 1⟩).camera ∧
       (resize 1024 0 (init ⟨1024, 768, 1⟩)).renderer = (init ⟨1024, 768, 1⟩).renderer ∧
       (resize 1024 0 (init ⟨1024, 768, 1⟩)).composer = (init ⟨1024, 768, 1⟩).composer) := by
  have ha : (resize 1024 0 (init ⟨1024, 768, 1⟩)).camera.aspect = .posInf := by
    simp [resize, resizeListener, PerspectiveCamera.updateProjectionMatrix, init,
      JSNum.div, JSNum.inf]
  have hr : (resize 1024 0 (init ⟨1024, 768, 1⟩)).renderer.height = 0 := by
    simp [resize, resizeListener]
  have hr0 : (init ⟨1024, 768, 1⟩).renderer.height = 768 := by simp [init]
  refine ⟨ha, by rw [ha]; rfl, ?_, ?_, hr0, hr, ?_, ?_⟩
  · simp [resize, resizeListener, PerspectiveCamera.updateProjectionMatrix, init,
      JSNum.div, JSNum.inf]
  · simp [init, JSNum.div]; norm_num
  · simp [resize, resizeListener]
  · rintro ⟨-, h, -⟩
    rw [h, hr0] at hr
    exact absurd hr (by decide)

/-- C5, amended: a resize to `w × h` with `w = 0` or `h = 0` performs every
update of the handler. The aspect written is the unguarded quotient `w / h`:
`+Infinity` when `h = 0 < w`, NaN when `w = h = 0`, and 0 when `w = 0 < h`. The
field of view and distance follow the width, the renderer and the composer get
the size `w × h`, and a loaded model gets the scale of the width. -/
theorem resize_zero_dimension (s : Viewer) (w h : Nat) (hz : w = 0 ∨ h = 0) :
    (resize w h s).camera.aspect =
      (if h = 0 then (if w = 0 then .nan else .posInf) else .fin 0) ∧
    (resize w h s).camera.projectionMatrix.aspect = (resize w h s).camera.aspect ∧
    (resize w h s).camera.fov = (if w ≤ 768 then 45 else 30) ∧
    (resize w h s).camera.position.z = (if w ≤ 768 then 7 else 5) ∧
    (resize w h s).renderer.width = w ∧ (resize w h s).renderer.height = h ∧
    (resize w h s).composer.width = w ∧ (resize w h s).composer.height = h ∧
    (resize w h s).model = s.model.map (fun m =>
      { m with scale := if w ≤ 768 then ⟨0.8, 0.8, 0.8⟩ else ⟨1, 1, 1⟩ }) := by
  refine ⟨?_, ?_, ?_, ?_, ?_, ?_, ?_, ?_, ?_⟩
  · rcases hz with hw | hh
    · subst hw
      by_cases hh : h = 0
      · simp [resize, resizeListener, PerspectiveCamera.updateProjectionMatrix, JSNum.div, hh]
      · simp [resize, resizeListener, PerspectiveCamera.updateProjectionMatrix, JSNum.div, hh]
    · subst hh
      by_cases hw : w = 0
      · simp [resize, resizeListener, PerspectiveCamera.updateProjectionMatrix, JSNum.div, hw]
      · simp [resize, resizeListener, PerspectiveCamera.updateProjectionMatrix, JSNum.div,
          JSNum.inf, hw]
  · simp [resize, resizeListener, PerspectiveCamera.updateProjectionMatrix]
  · simp [resize, resizeListener, PerspectiveCamera.updateProjectionMatrix, isMobile]
  · simp [resize, resizeListener, PerspectiveCamera.updateProjectionMatrix, isMobile]
  · simp [resize, resizeListener]
  · simp [resize, resizeListener]
  · simp [resize, resizeListener]
  · simp [resize, resizeListener]
  · cases hm : s.model with
    | none => simp [resize, resizeListener, hm]
    | some m => by_cases hw : w ≤ 768 <;> simp [resize, resizeListener, isMobile, hm, hw]

theorem resize_zero_dimension_witness :
    ((1024 : Nat) = 0 ∨ (0 : Nat) = 0) ∧
    (resize 1024 0
      (onModelLoad ⟨⟨0.8, 0.8, 0.8⟩, ⟨0, 0, 0⟩⟩ (init ⟨600, 800, 1⟩))).camera.aspect = .posInf ∧
    (resize 1024 0
      (onModelLoad ⟨⟨0.8, 0.8, 0.8⟩, ⟨0, 0, 0⟩⟩ (init ⟨600, 800, 1⟩))).camera.fov = 30 ∧
    (resize 1024 0
      (onModelLoad ⟨⟨0.8, 0.8, 0.8⟩, ⟨0, 0, 0⟩⟩ (init ⟨600, 800, 1⟩))).renderer.height = 0 := by
  have h := resize_zero_dimension
    (onModelLoad ⟨⟨0.8, 0.8, 0.8⟩, ⟨0, 0, 0⟩⟩ (init ⟨600, 800, 1⟩)) 1024 0 (Or.inr rfl)
  refine ⟨Or.inr rfl, ?_, ?_, h.2.2.2.2.2.1⟩
  · simpa using h.1
  · simpa using h.2.2.1

/-! ## Release of the environment-load resources -/

/-- C7, as stated, fails: when the environment-map load ends in a load error,
the environment-map generator has been released zero times, not once. -/
theorem environment_error_releases_nothing :
    (environmentLoadCompletes .error (init ⟨1024, 768, 1⟩)).disposed.count
      .pmremGenerator = 0 ∧
    (environmentLoadCompletes .error (init ⟨1024, 768, 1⟩)).disposed.count
      .pmremGenerator ≠ 1 ∧
    (environmentLoadCompletes .error (init ⟨1024, 768, 1⟩)).disposed = [] := by
  simp [environmentLoadCompletes, init]

/-- C7, amended: when the environment-map load ends in success, the callback
installs the environment map and releases the source texture and the generator
once each, so that after startup each has been released exactly once; when the
load ends in an error no statement of the script runs and the state, with its
record of releases, is unchanged, so after startup nothing has been released. -/
theorem environment_load_release (s : Viewer) (texture : Texture) (window : Window) :
    (environmentLoadCompletes (.success texture) s).disposed.count (.texture texture) =
      s.disposed.count (.texture texture) + 1 ∧
    (environmentLoadCompletes (.success texture) s).disposed.count .pmremGenerator =
      s.disposed.count .pmremGenerator + 1 ∧
    (environmentLoadCompletes (.success texture) s).scene.environment = some ⟨texture⟩ ∧
    (environmentLoadCompletes (.success texture) (init window)).disposed.count
      (.texture texture) = 1 ∧
    (environmentLoadCompletes (.success texture) (init window)).disposed.count
      .pmremGenerator = 1 ∧
    environmentLoadCompletes .error s = s ∧
    (environmentLoadCompletes .error (init window)).disposed = [] := by
  refine ⟨?_, ?_, ?_, ?_, ?_, rfl, ?_⟩ <;>
    simp [environmentLoadCompletes, onEnvironmentLoad, init, List.count_append,
      List.count_cons]

/-! ## The colour-shift amount across a resize -/

/-- C8 fails on the code: the resize handler never writes the `amount` of the
colour-shift pass. After a desktop start at 1024 × 768 and a resize to
600 × 800 the width is mobile and the camera has the mobile field of view and
distance, but the amount is still the desktop 0.0030, not 0.0015. -/
theorem rgbShift_amount_stale_after_resize :
    (∀ (s : Viewer) (w h : Nat), (resize w h s).rgbShiftPass = s.rgbShiftPass) ∧
    isMobile (resize 600 800 (init ⟨1024, 768, 1⟩)).window = true ∧
    (resize 600 800 (init ⟨1024, 768, 1⟩)).camera.fov = 45 ∧
    (resize 600 800 (init ⟨1024, 768, 1⟩)).camera.position.z = 7 ∧
    (resize 600 800 (init ⟨1024, 768, 1⟩)).rgbShiftPass.amount = 0.0030 ∧
    (resize 600 800 (init ⟨1024, 768, 1⟩)).rgbShiftPass.amount ≠ 0.0015 ∧
    (init ⟨600, 800, 1⟩).rgbShiftPass.amount = 0.0015 := by
  refine ⟨fun s w h => rfl, ?_, ?_, ?_, ?_, ?_, ?_⟩
  · simp [resize, resizeListener, isMobile]
  · simp [resize, resizeListener, PerspectiveCamera.updateProjectionMatrix, isMobile]
  · simp [resize, resizeListener, PerspectiveCamera.updateProjectionMatrix, isMobile]
  · simp [resize, resizeListener, init, isMobile]
  · simp [resize, resizeListener, init, isMobile]; norm_num
  · simp [init, isMobile]

end MyWebsite
